import Mathlib

/-!
Shallow embedding of the shopping-list application's persistence and
mutation logic (`src/app.py`).

The remote store is a Google Sheet with header row
`timestamp, item, purchased, category, store`; we model only the data
rows (the header is implicit), so the 0-based data row `i` corresponds
to the 1-based sheet row `i + 2`, exactly the arithmetic of
`find_row_index`.  A raw sheet cell as returned by
`sheet.get_all_records()` is either a text cell or a boolean cell
(booleans arise when a Python `True`/`False` is appended with
`value_input_option USER_ENTERED`).  Loading converts raw rows to the
in-memory DataFrame rows (`Item`), coercing `purchased` with
`astype(str).str.lower().map({true, false}).fillna(False)`.
-/

namespace ShoppingList

/-- A raw cell value of the remote sheet as surfaced by
`sheet.get_all_records()`: either text or a boolean cell. -/
inductive Cell where
  | str (s : String)
  | boolean (b : Bool)
deriving DecidableEq

/-- Python's `str()` on a `bool`: `"True"` / `"False"`. -/
def pyBoolStr (b : Bool) : String := if b then "True" else "False"

/-- ASCII lower-casing of one character (the fragment of Python's
`str.lower()` the app relies on). -/
def asciiLowerChar (c : Char) : Char :=
  if c.isUpper then Char.ofNat (c.toNat + 32) else c

/-- ASCII upper-casing of one character (the fragment of Python's
`str.upper()` the app relies on). -/
def asciiUpperChar (c : Char) : Char :=
  if c.isLower then Char.ofNat (c.toNat - 32) else c

/-- Python's `str.lower()` (ASCII fragment). -/
def pyLower (s : String) : String := ⟨s.data.map asciiLowerChar⟩

/-- Python's `str.upper()` (ASCII fragment). -/
def pyUpper (s : String) : String := ⟨s.data.map asciiUpperChar⟩

/-- The whitespace characters Python's `str.strip()` removes. -/
def pyIsSpace (c : Char) : Bool :=
  c = ' ' || c = '\t' || c = '\n' || c = '\r' || c = '\x0b' || c = '\x0c'

/-- Drop the leading whitespace of a character list. -/
def dropLeadingSpace : List Char → List Char
  | [] => []
  | c :: cs => if pyIsSpace c then dropLeadingSpace cs else c :: cs

/-- Python's `str.strip()`: remove leading and trailing whitespace. -/
def pyStrip (s : String) : String :=
  ⟨(dropLeadingSpace (dropLeadingSpace s.data).reverse).reverse⟩

/-- pandas `astype(str)` on a raw cell value. -/
def pyStr (c : Cell) : String :=
  match c with
  | Cell.str s => s
  | Cell.boolean b => pyBoolStr b

/-- One data row of the remote sheet, in header order
`timestamp, item, purchased, category, store` (`app.py` line 119). -/
structure SheetRow where
  timestamp : String
  item : String
  purchased : Cell
  category : String
  store : String
deriving DecidableEq

/-- The remote sheet: its data rows, in order (header row implicit). -/
structure Sheet where
  rows : List SheetRow
deriving DecidableEq

/-- One row of the in-memory DataFrame after `load_and_get_data`:
`purchased` has been coerced to a boolean. -/
structure Item where
  timestamp : String
  item : String
  purchased : Bool
  category : String
  store : String
deriving DecidableEq

/-- The dictionary of `df["purchased"].map({'true': True, 'false': False})`
(`app.py` line 100): unmapped values become missing (`none`). -/
def mapBool (s : String) : Option Bool :=
  if s = "true" then some true
  else if s = "false" then some false
  else none

/-- The full coercion
`astype(str).str.lower().map({'true': True, 'false': False}).fillna(False)`
applied to one raw cell (`app.py` line 100). -/
def parsePurchased (c : Cell) : Bool :=
  (mapBool (pyLower (pyStr c))).getD false

/-- Loading one sheet row into a DataFrame row (`app.py` lines 94-103). -/
def loadRow (r : SheetRow) : Item :=
  { timestamp := r.timestamp
    item := r.item
    purchased := parsePurchased r.purchased
    category := r.category
    store := r.store }

/-- The DataFrame produced from a successfully opened sheet. -/
def loadDf (sheet : Sheet) : List Item := sheet.rows.map loadRow

/-- Python's `list.index` inside `try/except ValueError` (`app.py`
lines 140-144): the 0-based position of the first exact match, `none`
when absent. -/
def pyListIndex (x : String) : List String → Option Nat
  | [] => none
  | y :: ys => if y = x then some 0 else (pyListIndex x ys).map (fun n => n + 1)

/-- `find_row_index` (`app.py` lines 133-144): scan the identifier
column (`sheet.col_values(1)[1:]`, i.e. the timestamps of the data
rows), take the 0-based index of the first exact match and add 2 to get
the 1-based sheet row; `none` when the identifier is absent. -/
def find_row_index (sheet : Sheet) (timestamp_id : String) : Option Nat :=
  (pyListIndex timestamp_id (sheet.rows.map SheetRow.timestamp)).map (fun i => i + 2)

/-- `df.loc[df['timestamp'] == timestamp_id, ...].iloc[0]` selects the
first DataFrame row whose timestamp equals the id; `none` models the
empty selection (on which `.iloc[0]` raises `IndexError`). -/
def dfFirst (timestamp_id : String) : List Item → Option Item
  | [] => none
  | r :: rs => if r.timestamp = timestamp_id then some r else dfFirst timestamp_id rs

/-- `sheet.update_cell(row, 3, v)` restricted to the `purchased` column:
replace the `purchased` cell of the data row at 0-based position `n`. -/
def setPurchased (v : Cell) : List SheetRow → Nat → List SheetRow
  | [], _ => []
  | r :: rs, 0 => { r with purchased := v } :: rs
  | r :: rs, Nat.succ n => r :: setPurchased v rs n

/-- `sheet.delete_rows(row)`: remove the data row at 0-based position `n`. -/
def deleteNth : List SheetRow → Nat → List SheetRow
  | [], _ => []
  | _ :: rs, 0 => rs
  | r :: rs, Nat.succ n => r :: deleteNth rs n

/-- Outcome of `toggle_item`: either the sheet after the update, or the
`IndexError` that `.iloc[0]` raises on an empty selection. -/
inductive ToggleResult where
  | indexError
  | ok (sheet : Sheet)
deriving DecidableEq

/-- The cell text `str(new_status).upper()` written by `toggle_item`
(`app.py` line 168). -/
def toggleCell (b : Bool) : Cell := Cell.str (pyUpper (pyBoolStr b))

/-- `toggle_item` (`app.py` lines 147-171), success path of the load:
read the first matching DataFrame row (`.iloc[0]` raises `IndexError`
when nothing matches), compute `new_status = not current_status`,
re-derive the sheet row with `find_row_index`, and when found update
the single `purchased` cell (column 3) to `str(new_status).upper()`. -/
def toggle_item (sheet : Sheet) (timestamp_id : String) : ToggleResult :=
  match dfFirst timestamp_id (loadDf sheet) with
  | none => ToggleResult.indexError
  | some row =>
    let new_status := !row.purchased
    match find_row_index sheet timestamp_id with
    | none => ToggleResult.ok sheet
    | some row_index =>
        ToggleResult.ok ⟨setPurchased (toggleCell new_status) sheet.rows (row_index - 2)⟩

/-- `delete_item` (`app.py` lines 173-189), success path of the load:
re-derive the sheet row with `find_row_index` and delete it when found;
otherwise leave the sheet unchanged. -/
def delete_item (sheet : Sheet) (timestamp_id : String) : Sheet :=
  match find_row_index sheet timestamp_id with
  | none => sheet
  | some row_index => ⟨deleteNth sheet.rows (row_index - 2)⟩

/-- Writing one DataFrame row back to the sheet (`df.values.tolist()`
followed by `append_rows` with `USER_ENTERED`): the boolean `purchased`
becomes a boolean cell. -/
def saveRow (it : Item) : SheetRow :=
  { timestamp := it.timestamp
    item := it.item
    purchased := Cell.boolean it.purchased
    category := it.category
    store := it.store }

/-- `save_data_to_sheet` (`app.py` lines 73-81), success path: clear the
sheet, write the header, append every DataFrame row. -/
def save_data_to_sheet (df : List Item) : Sheet := ⟨df.map saveRow⟩

/-- The failures a fetch from the remote store can raise:
`gspread.SpreadsheetNotFound`, or any other error (store unreachable). -/
inductive FetchError where
  | spreadsheetNotFound
  | unreachable
deriving DecidableEq

/-- What `load_and_get_data` does for its caller: return a `(sheet, df)`
pair (the sheet is `none` when creation of a fresh spreadsheet failed),
or let an exception propagate. -/
inductive LoadResult where
  | ok (sheet : Option Sheet) (df : List Item)
  | raised (e : FetchError)
deriving DecidableEq

/-- `load_and_get_data` (`app.py` lines 85-130).  `fetched` is the
outcome of `_client.open(SHEET_NAME)` + `sheet.get_all_records()`;
`createSucceeds` is whether the sheet-creation fallback succeeds.  The
`try` block catches only `gspread.SpreadsheetNotFound` (creating a fresh
empty sheet, or returning `(None, empty df)` when creation fails too);
every other exception propagates to the caller. -/
def load_and_get_data (fetched : Except FetchError Sheet) (createSucceeds : Bool) :
    LoadResult :=
  match fetched with
  | Except.ok sheet => LoadResult.ok (some sheet) (loadDf sheet)
  | Except.error FetchError.spreadsheetNotFound =>
      if createSucceeds then LoadResult.ok (some ⟨[]⟩) []
      else LoadResult.ok none []
  | Except.error FetchError.unreachable => LoadResult.raised FetchError.unreachable

/-- The in-memory DataFrame together with whether its schema columns are
present.  `pd.DataFrame(data)` built from `sheet.get_all_records()` has
the schema columns exactly when `data` is non-empty: a header-only sheet
yields `pd.DataFrame([])`, which has no columns at all (the guard
`if "purchased" in df.columns` at `app.py` line 98 exists for this very
case), so a later `df["item"]` raises `KeyError`.  The creation fallback
instead builds `pd.DataFrame(columns=[...])`, which has the columns even
though it is empty. -/
structure DataFrame where
  hasColumns : Bool
  rows : List Item
deriving DecidableEq

/-- The DataFrame obtained by loading an existing sheet
(`pd.DataFrame(sheet.get_all_records())` plus the `purchased` coercion):
its columns are present exactly when the sheet has at least one data row. -/
def dfOfSheet (sheet : Sheet) : DataFrame :=
  ⟨!sheet.rows.isEmpty, loadDf sheet⟩

/-- Result of submitting the add-item form: either the sheet afterwards
together with whether a row was appended, or the `KeyError` that
`df["item"]` raises when the loaded DataFrame has no columns. -/
inductive AddResult where
  | ok (sheet : Sheet) (added : Bool)
  | keyError
deriving DecidableEq

/-- The add-item form handler (`app.py` lines 236-263): with `new_store`
and `new_category` the selectbox values (`none` when unselected), `df`
the DataFrame the page loaded, and `now` the `datetime.now().strftime(...)`
creation timestamp, validate in order (store selected, category selected,
trimmed name non-empty, trimmed name not already in `df["item"].values`)
and on success append one row with `purchased = False`.  The duplicate
check evaluates `df["item"]`, which raises `KeyError` when the DataFrame
has no columns (line 246). -/
def add_item_form (sheet : Sheet) (df : DataFrame) (new_store new_category : Option String)
    (new_item : String) (now : String) : AddResult :=
  let new_item_val := pyStrip new_item
  match new_store with
  | none => AddResult.ok sheet false
  | some storeVal =>
    match new_category with
    | none => AddResult.ok sheet false
    | some categoryVal =>
      if new_item_val = "" then AddResult.ok sheet false
      else if !df.hasColumns then AddResult.keyError
      else if new_item_val ∈ df.rows.map Item.item then AddResult.ok sheet false
      else
        AddResult.ok
          ⟨sheet.rows ++ [{ timestamp := now
                            item := new_item_val
                            purchased := Cell.boolean false
                            category := categoryVal
                            store := storeVal }]⟩ true

/-- The `purchased` value the UI sees for an identifier: the first
matching row of the loaded DataFrame. -/
def purchasedOf (sheet : Sheet) (timestamp_id : String) : Option Bool :=
  (dfFirst timestamp_id (loadDf sheet)).map Item.purchased

/-- The identifier-independent content of a DataFrame row:
`(name, purchased, category, store)`. -/
def itemTuple (it : Item) : String × Bool × String × String :=
  (it.item, it.purchased, it.category, it.store)

/-- A concrete sheet row used to evaluate the theorems: id `"A"`. -/
def wRowA : SheetRow := ⟨"A", "milk", Cell.str "False", "Meat/Dairy", "Costco"⟩

/-- A concrete sheet row used to evaluate the theorems: id `"B"`. -/
def wRowB : SheetRow := ⟨"B", "peas", Cell.str "True", "Frozen", "Whole Foods"⟩

/-- A concrete two-row sheet with distinct identifiers. -/
def wSheet : Sheet := ⟨[wRowA, wRowB]⟩

/-- `wRowA` after `toggle_item wSheet "A"`. -/
def wRowAToggled : SheetRow := ⟨"A", "milk", Cell.str "TRUE", "Meat/Dairy", "Costco"⟩

/-- `wSheet` after `toggle_item wSheet "A"`. -/
def wSheetToggled : Sheet := ⟨[wRowAToggled, wRowB]⟩

/-- A concrete one-row sheet whose `purchased` cell has mixed casing. -/
def wSheetCase : Sheet := ⟨[⟨"C", "soda", Cell.str "TrUe", "Beverages", "Other"⟩]⟩

/-! ### Helper lemmas about the embedded operations -/

theorem parse_toggleCell (b : Bool) : parsePurchased (toggleCell b) = b := by
  cases b <;> decide

theorem parse_boolean (b : Bool) : parsePurchased (Cell.boolean b) = b := by
  cases b <;> rfl

theorem loadRow_timestamp (r : SheetRow) : (loadRow r).timestamp = r.timestamp := rfl

theorem dfFirst_append (timestamp_id : String) (l1 l2 : List Item)
    (h1 : ∀ x ∈ l1, x.timestamp ≠ timestamp_id) :
    dfFirst timestamp_id (l1 ++ l2) = dfFirst timestamp_id l2 := by
  induction l1 with
  | nil => rfl
  | cons r rs ih =>
    have hr : r.timestamp ≠ timestamp_id := h1 r (List.mem_cons_self r rs)
    simp only [List.cons_append, dfFirst, if_neg hr]
    exact ih (fun x hx => h1 x (List.mem_cons_of_mem r hx))

theorem dfFirst_cons_self (timestamp_id : String) (r : Item) (rs : List Item)
    (hr : r.timestamp = timestamp_id) :
    dfFirst timestamp_id (r :: rs) = some r := by
  simp [dfFirst, hr]

theorem pyListIndex_append (x : String) (l1 l2 : List String)
    (h1 : ∀ y ∈ l1, y ≠ x) :
    pyListIndex x (l1 ++ x :: l2) = some l1.length := by
  induction l1 with
  | nil => simp [pyListIndex]
  | cons y ys ih =>
    have hy : y ≠ x := h1 y (List.mem_cons_self y ys)
    have ih' := ih (fun z hz => h1 z (List.mem_cons_of_mem y hz))
    rw [List.cons_append]
    show (if y = x then some 0 else (pyListIndex x (ys ++ x :: l2)).map (fun n => n + 1)) =
      some (y :: ys).length
    rw [if_neg hy, ih']
    simp

theorem pyListIndex_none_iff (x : String) (l : List String) :
    pyListIndex x l = none ↔ x ∉ l := by
  induction l with
  | nil => simp [pyListIndex]
  | cons y ys ih =>
    by_cases hy : y = x
    · simp [pyListIndex, hy]
    · simp [pyListIndex, hy, ih, Option.map_eq_none', Ne.symm hy]

theorem pyListIndex_of_first (x : String) (l : List String) (i : Nat)
    (h : l.get? i = some x) (hmin : ∀ k, k < i → l.get? k ≠ some x) :
    pyListIndex x l = some i := by
  induction l generalizing i with
  | nil => simp at h
  | cons y ys ih =>
    cases i with
    | zero =>
      simp only [List.get?] at h
      injection h with h
      simp [pyListIndex, h]
    | succ j =>
      have hy : y ≠ x := by
        have h0 := hmin 0 (Nat.succ_pos j)
        simpa [List.get?] using h0
      have hj : ys.get? j = some x := by simpa [List.get?] using h
      have hjmin : ∀ k, k < j → ys.get? k ≠ some x := by
        intro k hk
        have := hmin (k + 1) (Nat.succ_lt_succ hk)
        simpa [List.get?] using this
      simp [pyListIndex, hy, ih j hj hjmin]

theorem setPurchased_get? (v : Cell) (l : List SheetRow) (n j : Nat) :
    (setPurchased v l n).get? j =
      if j = n then (l.get? j).map (fun r => { r with purchased := v }) else l.get? j := by
  induction l generalizing n j with
  | nil => simp [setPurchased]
  | cons r rs ih =>
    cases n with
    | zero =>
      cases j with
      | zero => simp [setPurchased]
      | succ j => simp [setPurchased]
    | succ n =>
      cases j with
      | zero => simp [setPurchased]
      | succ j => simpa [setPurchased, Nat.succ_inj] using ih n j

theorem setPurchased_append (v : Cell) (l1 : List SheetRow) (r : SheetRow)
    (l2 : List SheetRow) :
    setPurchased v (l1 ++ r :: l2) l1.length = l1 ++ { r with purchased := v } :: l2 := by
  induction l1 with
  | nil => rfl
  | cons a l1 ih => simpa [setPurchased] using ih

theorem deleteNth_append (l1 : List SheetRow) (r : SheetRow) (l2 : List SheetRow) :
    deleteNth (l1 ++ r :: l2) l1.length = l1 ++ l2 := by
  induction l1 with
  | nil => rfl
  | cons a l1 ih => simpa [deleteNth] using ih

theorem first_occurrence {rows : List SheetRow} {timestamp_id : String}
    (h : timestamp_id ∈ rows.map SheetRow.timestamp) :
    ∃ l1 r l2, rows = l1 ++ r :: l2 ∧ r.timestamp = timestamp_id ∧
      ∀ x ∈ l1, x.timestamp ≠ timestamp_id := by
  induction rows with
  | nil => simp at h
  | cons a rs ih =>
    by_cases ha : a.timestamp = timestamp_id
    · exact ⟨[], a, rs, rfl, ha, by simp⟩
    · have h' : timestamp_id ∈ rs.map SheetRow.timestamp := by
        rcases List.mem_map.mp h with ⟨x, hx, hxid⟩
        rcases List.mem_cons.mp hx with rfl | hx
        · exact absurd hxid ha
        · exact List.mem_map.mpr ⟨x, hx, hxid⟩
      obtain ⟨l1, r, l2, hdec, hrid, hl1⟩ := ih h'
      refine ⟨a :: l1, r, l2, by rw [hdec, List.cons_append], hrid, ?_⟩
      intro x hx
      rcases List.mem_cons.mp hx with rfl | hx
      · exact ha
      · exact hl1 x hx

theorem find_row_index_append (timestamp_id : String) (l1 : List SheetRow)
    (r : SheetRow) (l2 : List SheetRow) (hr : r.timestamp = timestamp_id)
    (h1 : ∀ x ∈ l1, x.timestamp ≠ timestamp_id) :
    find_row_index ⟨l1 ++ r :: l2⟩ timestamp_id = some (l1.length + 2) := by
  unfold find_row_index
  have hmap : (l1 ++ r :: l2).map SheetRow.timestamp =
      (l1.map SheetRow.timestamp) ++ timestamp_id :: l2.map SheetRow.timestamp := by
    simp [hr]
  rw [hmap, pyListIndex_append]
  · simp
  · intro y hy
    rcases List.mem_map.mp hy with ⟨x, hx, rfl⟩
    exact h1 x hx

theorem find_row_index_none (sheet : Sheet) (timestamp_id : String)
    (h : timestamp_id ∉ sheet.rows.map SheetRow.timestamp) :
    find_row_index sheet timestamp_id = none := by
  unfold find_row_index
  rw [(pyListIndex_none_iff timestamp_id _).mpr h]
  rfl

theorem toggle_decomp (timestamp_id : String) (l1 : List SheetRow) (r : SheetRow)
    (l2 : List SheetRow) (hr : r.timestamp = timestamp_id)
    (h1 : ∀ x ∈ l1, x.timestamp ≠ timestamp_id) :
    toggle_item ⟨l1 ++ r :: l2⟩ timestamp_id =
      ToggleResult.ok
        ⟨l1 ++ { r with purchased := toggleCell (!parsePurchased r.purchased) } :: l2⟩ := by
  have hdf : dfFirst timestamp_id (loadDf ⟨l1 ++ r :: l2⟩) = some (loadRow r) := by
    have hload : loadDf ⟨l1 ++ r :: l2⟩ = l1.map loadRow ++ loadRow r :: l2.map loadRow := by
      simp [loadDf]
    rw [hload, dfFirst_append, dfFirst_cons_self]
    · rw [loadRow_timestamp]; exact hr
    · intro x hx
      rcases List.mem_map.mp hx with ⟨y, hy, rfl⟩
      rw [loadRow_timestamp]; exact h1 y hy
  have hfri := find_row_index_append timestamp_id l1 r l2 hr h1
  simp only [toggle_item, hdf, hfri]
  have hsub : l1.length + 2 - 2 = l1.length := by omega
  rw [hsub, setPurchased_append]
  rfl

theorem delete_decomp (timestamp_id : String) (l1 : List SheetRow) (r : SheetRow)
    (l2 : List SheetRow) (hr : r.timestamp = timestamp_id)
    (h1 : ∀ x ∈ l1, x.timestamp ≠ timestamp_id) :
    delete_item ⟨l1 ++ r :: l2⟩ timestamp_id = ⟨l1 ++ l2⟩ := by
  have hfri := find_row_index_append timestamp_id l1 r l2 hr h1
  simp only [delete_item, hfri]
  have hsub : l1.length + 2 - 2 = l1.length := by omega
  rw [hsub, deleteNth_append]

theorem purchasedOf_append (timestamp_id : String) (l1 : List SheetRow) (r : SheetRow)
    (l2 : List SheetRow) (hr : r.timestamp = timestamp_id)
    (h1 : ∀ x ∈ l1, x.timestamp ≠ timestamp_id) :
    purchasedOf ⟨l1 ++ r :: l2⟩ timestamp_id = some (parsePurchased r.purchased) := by
  unfold purchasedOf
  have hload : loadDf ⟨l1 ++ r :: l2⟩ = l1.map loadRow ++ loadRow r :: l2.map loadRow := by
    simp [loadDf]
  rw [hload, dfFirst_append, dfFirst_cons_self]
  · rfl
  · rw [loadRow_timestamp]; exact hr
  · intro x hx
    rcases List.mem_map.mp hx with ⟨y, hy, rfl⟩
    rw [loadRow_timestamp]; exact h1 y hy

/-! ### C1 -/

/-- C1: the claim says a toggle request whose identifier matches no record in the
loaded collection is a silent no-op.  The code instead evaluates
`df.loc[df['timestamp'] == timestamp_id, "purchased"].iloc[0]` on an empty
selection, which raises `IndexError` before the not-found guard is reached:
on a one-record collection, toggling an unknown identifier raises. -/
theorem toggle_unknown_id_raises :
    toggle_item ⟨[⟨"A", "milk", Cell.str "False", "Meat/Dairy", "Costco"⟩]⟩ "Z" =
      ToggleResult.indexError := rfl

/-! ### C2 -/

/-- C2: for a collection with unique identifiers and a record with identifier
`timestamp_id` present, toggling twice succeeds and returns the record's
`purchased` value (as seen by a reload) to its original value. -/
theorem toggle_involution (sheet : Sheet) (timestamp_id : String)
    (hu : (sheet.rows.map SheetRow.timestamp).Nodup)
    (hmem : timestamp_id ∈ sheet.rows.map SheetRow.timestamp) :
    ∃ s1 s2, toggle_item sheet timestamp_id = ToggleResult.ok s1 ∧
      toggle_item s1 timestamp_id = ToggleResult.ok s2 ∧
      purchasedOf s2 timestamp_id = purchasedOf sheet timestamp_id := by
  obtain ⟨l1, r, l2, hdec, hrid, hl1⟩ := first_occurrence hmem
  have hsheet : sheet = ⟨l1 ++ r :: l2⟩ := by
    cases sheet
    simpa using hdec
  have hr1id : ({ r with purchased := toggleCell (!parsePurchased r.purchased) } :
      SheetRow).timestamp = timestamp_id := hrid
  have hr2id : ({ r with purchased := toggleCell (!parsePurchased (toggleCell (!parsePurchased r.purchased))) } : SheetRow).timestamp = timestamp_id := hrid
  refine ⟨⟨l1 ++ { r with purchased := toggleCell (!parsePurchased r.purchased) } :: l2⟩, ⟨l1 ++ { r with purchased := toggleCell (!parsePurchased (toggleCell (!parsePurchased r.purchased))) } :: l2⟩, ?_, ?_, ?_⟩
  · rw [hsheet]
    exact toggle_decomp timestamp_id l1 r l2 hrid hl1
  · exact toggle_decomp timestamp_id l1 _ l2 hr1id hl1
  · rw [hsheet, purchasedOf_append timestamp_id l1 _ l2 hr2id hl1,
      purchasedOf_append timestamp_id l1 r l2 hrid hl1]
    simp [parse_toggleCell]

/-- Witness for C2 at a concrete two-row sheet. -/
theorem toggle_involution_witness :
    ((wSheet.rows.map SheetRow.timestamp).Nodup ∧
      "A" ∈ wSheet.rows.map SheetRow.timestamp) ∧
    (∃ s1 s2, toggle_item wSheet "A" = ToggleResult.ok s1 ∧
      toggle_item s1 "A" = ToggleResult.ok s2 ∧
      purchasedOf s2 "A" = purchasedOf wSheet "A") :=
  ⟨⟨by decide, by decide⟩, toggle_involution wSheet "A" (by decide) (by decide)⟩

/-! ### C3 -/

/-- C3: with unique identifiers, deleting an existing identifier removes exactly
the matched record (the rest of the collection, in order, is what remains, and
the length drops by one); deleting a non-existent identifier leaves the
collection unchanged (and, the model being total, raises nothing). -/
theorem delete_spec (sheet : Sheet) (timestamp_id : String)
    (hu : (sheet.rows.map SheetRow.timestamp).Nodup) :
    (timestamp_id ∈ sheet.rows.map SheetRow.timestamp →
      ∃ l1 r l2, sheet.rows = l1 ++ r :: l2 ∧ r.timestamp = timestamp_id ∧
        (delete_item sheet timestamp_id).rows = l1 ++ l2 ∧
        (delete_item sheet timestamp_id).rows.length + 1 = sheet.rows.length) ∧
    (timestamp_id ∉ sheet.rows.map SheetRow.timestamp →
      delete_item sheet timestamp_id = sheet) := by
  constructor
  · intro hmem
    obtain ⟨l1, r, l2, hdec, hrid, hl1⟩ := first_occurrence hmem
    have hsheet : sheet = ⟨l1 ++ r :: l2⟩ := by
      cases sheet
      simpa using hdec
    refine ⟨l1, r, l2, hdec, hrid, ?_, ?_⟩
    · rw [hsheet, delete_decomp timestamp_id l1 r l2 hrid hl1]
    · rw [hsheet, delete_decomp timestamp_id l1 r l2 hrid hl1]
      simp
      omega
  · intro hmem
    unfold delete_item
    rw [find_row_index_none sheet timestamp_id hmem]

/-- Witness for C3 at a concrete two-row sheet. -/
theorem delete_spec_witness :
    (wSheet.rows.map SheetRow.timestamp).Nodup ∧
    (("A" ∈ wSheet.rows.map SheetRow.timestamp →
      ∃ l1 r l2, wSheet.rows = l1 ++ r :: l2 ∧ r.timestamp = "A" ∧
        (delete_item wSheet "A").rows = l1 ++ l2 ∧
        (delete_item wSheet "A").rows.length + 1 = wSheet.rows.length) ∧
    ("A" ∉ wSheet.rows.map SheetRow.timestamp → delete_item wSheet "A" = wSheet)) :=
  ⟨by decide, delete_spec wSheet "A" (by decide)⟩

/-! ### C4 -/

/-- C4, counterexample to the claim as stated: the claim says every fetch
failure is swallowed and load degrades to an empty collection, but the `try`
block of `load_and_get_data` catches only `gspread.SpreadsheetNotFound`; a
fetch failure because the store is unreachable propagates to the caller. -/
theorem load_unreachable_raises :
    load_and_get_data (Except.error FetchError.unreachable) true =
      LoadResult.raised FetchError.unreachable ∧
    LoadResult.raised FetchError.unreachable ≠ LoadResult.ok none [] ∧
    LoadResult.raised FetchError.unreachable ≠ LoadResult.ok (some ⟨[]⟩) [] := by
  refine ⟨rfl, ?_, ?_⟩ <;> decide

/-- C4, amended: only the store-does-not-exist failure is swallowed: on
`SpreadsheetNotFound` load degrades to an empty, correctly-shaped collection
(with a freshly created sheet, or with no sheet when creation fails too),
while any other fetch failure (store unreachable) propagates to the caller. -/
theorem load_error_handling :
    load_and_get_data (Except.error FetchError.spreadsheetNotFound) true =
      LoadResult.ok (some ⟨[]⟩) [] ∧
    load_and_get_data (Except.error FetchError.spreadsheetNotFound) false =
      LoadResult.ok none [] ∧
    load_and_get_data (Except.error FetchError.unreachable) true =
      LoadResult.raised FetchError.unreachable ∧
    load_and_get_data (Except.error FetchError.unreachable) false =
      LoadResult.raised FetchError.unreachable :=
  ⟨rfl, rfl, rfl, rfl⟩

/-! ### C5 -/

/-- C5, counterexample to the claim as stated: toggling writes
`str(new_status).upper()`, so the cell written is the literal text `"TRUE"`
(here) or `"FALSE"`, never `"True"` or `"False"`. -/
theorem toggle_uppercase_cex :
    toggle_item wSheet "A" = ToggleResult.ok wSheetToggled ∧
    wRowAToggled.purchased = Cell.str "TRUE" ∧
    Cell.str "TRUE" ≠ Cell.str "True" ∧ Cell.str "TRUE" ≠ Cell.str "False" := by
  refine ⟨by decide, rfl, ?_, ?_⟩ <;> decide

/-- C5, amended: every write of the `purchased` field performed by the toggle
operation persists it as the literal text `"TRUE"` or `"FALSE"` (uppercase,
still read back case-insensitively): after a successful toggle every row
either is unchanged or carries one of those two texts in `purchased`. -/
theorem toggle_writes_upper (sheet : Sheet) (timestamp_id : String) (s1 : Sheet)
    (h : toggle_item sheet timestamp_id = ToggleResult.ok s1)
    (j : Nat) (r r' : SheetRow)
    (hr : sheet.rows.get? j = some r) (hr' : s1.rows.get? j = some r') :
    r' = r ∨ r'.purchased = Cell.str "TRUE" ∨ r'.purchased = Cell.str "FALSE" := by
  unfold toggle_item at h
  cases hdf : dfFirst timestamp_id (loadDf sheet) with
  | none => rw [hdf] at h; exact absurd h (by simp)
  | some row =>
    rw [hdf] at h
    cases hfri : find_row_index sheet timestamp_id with
    | none =>
      rw [hfri] at h
      simp only [ToggleResult.ok.injEq] at h
      left
      rw [← h] at hr'
      rw [hr] at hr'
      exact (Option.some.injEq _ _).mp hr'.symm
    | some idx =>
      rw [hfri] at h
      simp only [ToggleResult.ok.injEq] at h
      rw [← h] at hr'
      rw [setPurchased_get?] at hr'
      by_cases hj : j = idx - 2
      · rw [if_pos hj, hr] at hr'
        simp only [Option.map_some', Option.some.injEq] at hr'
        right
        rw [← hr']
        cases row.purchased with
        | true => right; rfl
        | false => left; rfl
      · rw [if_neg hj, hr] at hr'
        left
        exact (Option.some.injEq _ _).mp hr'.symm

/-- Witness for C5's amended theorem at a concrete sheet and row. -/
theorem toggle_writes_upper_witness :
    toggle_item wSheet "A" = ToggleResult.ok wSheetToggled ∧
    wSheet.rows.get? 0 = some wRowA ∧ wSheetToggled.rows.get? 0 = some wRowAToggled ∧
    (wRowAToggled = wRowA ∨ wRowAToggled.purchased = Cell.str "TRUE" ∨
      wRowAToggled.purchased = Cell.str "FALSE") :=
  ⟨by decide, by decide, by decide,
    toggle_writes_upper wSheet "A" wSheetToggled (by decide) 0 wRowA wRowAToggled
      (by decide) (by decide)⟩

/-! ### C6 -/

/-- C6: on load, each row's stored `purchased` value is coerced to a boolean
case-insensitively: any value whose lower-casing is `"true"` maps to `true`,
any whose lower-casing is `"false"` maps to `false`, and every other value
defaults to `false`. -/
theorem load_purchased_coercion (sheet : Sheet) (i : Nat) (r : SheetRow)
    (h : sheet.rows.get? i = some r) :
    ∃ it, (loadDf sheet).get? i = some it ∧
      it.purchased = parsePurchased r.purchased ∧
      (pyLower (pyStr r.purchased) = "true" → it.purchased = true) ∧
      (pyLower (pyStr r.purchased) = "false" → it.purchased = false) ∧
      (pyLower (pyStr r.purchased) ≠ "true" → pyLower (pyStr r.purchased) ≠ "false" →
        it.purchased = false) := by
  refine ⟨loadRow r, ?_, rfl, ?_, ?_, ?_⟩
  · unfold loadDf
    rw [List.get?_map, h]
    rfl
  · intro hlow
    simp [loadRow, parsePurchased, mapBool, hlow]
  · intro hlow
    simp [loadRow, parsePurchased, mapBool, hlow]
  · intro ht hf
    simp [loadRow, parsePurchased, mapBool, ht, hf]

/-- Witness for C6 at a mixed-casing stored value. -/
theorem load_purchased_coercion_witness :
    wSheetCase.rows.get? 0 = some ⟨"C", "soda", Cell.str "TrUe", "Beverages", "Other"⟩ ∧
    (∃ it, (loadDf wSheetCase).get? 0 = some it ∧
      it.purchased = parsePurchased (Cell.str "TrUe") ∧
      (pyLower (pyStr (Cell.str "TrUe")) = "true" → it.purchased = true) ∧
      (pyLower (pyStr (Cell.str "TrUe")) = "false" → it.purchased = false) ∧
      (pyLower (pyStr (Cell.str "TrUe")) ≠ "true" → pyLower (pyStr (Cell.str "TrUe")) ≠ "false" →
        it.purchased = false)) :=
  ⟨by decide,
    load_purchased_coercion wSheetCase 0 ⟨"C", "soda", Cell.str "TrUe", "Beverages", "Other"⟩
      (by decide)⟩

/-! ### C7 -/

/-- C7: `find_row_index` re-derives the row position by exact-equality scanning
of the identifier column: if the identifier's first occurrence among the data
rows is at 0-based position `i`, it returns the 1-based sheet row `i + 2`, and
it returns `none` exactly when the identifier is absent. -/
theorem find_row_index_spec (sheet : Sheet) (timestamp_id : String) :
    (∀ i, (sheet.rows.map SheetRow.timestamp).get? i = some timestamp_id →
      (∀ k, k < i → (sheet.rows.map SheetRow.timestamp).get? k ≠ some timestamp_id) →
      find_row_index sheet timestamp_id = some (i + 2)) ∧
    (find_row_index sheet timestamp_id = none ↔
      timestamp_id ∉ sheet.rows.map SheetRow.timestamp) := by
  constructor
  · intro i hi hmin
    unfold find_row_index
    rw [pyListIndex_of_first timestamp_id _ i hi hmin]
    rfl
  · unfold find_row_index
    rw [Option.map_eq_none']
    exact pyListIndex_none_iff timestamp_id _

/-! ### C8 -/

/-- C8: with unique identifiers, toggling one record's identifier changes only
that record's `purchased` cell: the collection splits as `l1 ++ r :: l2` at the
matched record and the result is `l1 ++ r' :: l2` with `r'` equal to `r` except
for `purchased`, so every other record, the other fields of the matched record,
and the collection's size and order are unchanged. -/
theorem toggle_frame (sheet : Sheet) (timestamp_id : String)
    (hu : (sheet.rows.map SheetRow.timestamp).Nodup)
    (hmem : timestamp_id ∈ sheet.rows.map SheetRow.timestamp) :
    ∃ l1 r l2, sheet.rows = l1 ++ r :: l2 ∧ r.timestamp = timestamp_id ∧
      (∀ x ∈ l1, x.timestamp ≠ timestamp_id) ∧
      toggle_item sheet timestamp_id =
        ToggleResult.ok
          ⟨l1 ++ { r with purchased := toggleCell (!parsePurchased r.purchased) } :: l2⟩ := by
  obtain ⟨l1, r, l2, hdec, hrid, hl1⟩ := first_occurrence hmem
  have hsheet : sheet = ⟨l1 ++ r :: l2⟩ := by
    cases sheet
    simpa using hdec
  refine ⟨l1, r, l2, hdec, hrid, hl1, ?_⟩
  rw [hsheet]
  exact toggle_decomp timestamp_id l1 r l2 hrid hl1

/-- Witness for C8 at the spec's two-record scenario. -/
theorem toggle_frame_witness :
    ((wSheet.rows.map SheetRow.timestamp).Nodup ∧
      "A" ∈ wSheet.rows.map SheetRow.timestamp) ∧
    (∃ l1 r l2, wSheet.rows = l1 ++ r :: l2 ∧ r.timestamp = "A" ∧
      (∀ x ∈ l1, x.timestamp ≠ "A") ∧
      toggle_item wSheet "A" =
        ToggleResult.ok
          ⟨l1 ++ { r with purchased := toggleCell (!parsePurchased r.purchased) } :: l2⟩) :=
  ⟨⟨by decide, by decide⟩, toggle_frame wSheet "A" (by decide) (by decide)⟩

/-! ### C9 -/

/-- C9: saving a collection to the remote store and loading it back reproduces
the same sequence (hence set) of `(name, purchased, category, store)` tuples,
independent of the identifier representation. -/
theorem save_load_round_trip (df : List Item) :
    (loadDf (save_data_to_sheet df)).map itemTuple = df.map itemTuple := by
  induction df with
  | nil => rfl
  | cons it rest ih =>
    have hrow : loadRow (saveRow it) = it := by
      cases it
      simp [loadRow, saveRow, parse_boolean]
    simpa [loadDf, save_data_to_sheet, hrow] using ih

/-! ### C10 -/

/-- C10, counterexample to the claim as stated: against a loaded collection
that is empty (a header-only sheet, a reachable state after deleting the last
item), a submission with a store and category selected and a fresh non-empty
name does not append — the duplicate check `df["item"].values` raises
`KeyError`, because `pd.DataFrame([])` has no columns. -/
theorem add_empty_collection_keyerror :
    add_item_form (⟨[]⟩ : Sheet) (dfOfSheet ⟨[]⟩) (some "Costco") (some "Frozen") "corn" "T1" =
      AddResult.keyError ∧
    (some "Costco" : Option String) ≠ none ∧
    (some "Frozen" : Option String) ≠ none ∧
    pyStrip "corn" ≠ "" ∧
    pyStrip "corn" ∉ (dfOfSheet (⟨[]⟩ : Sheet)).rows.map Item.item ∧
    AddResult.keyError ≠
      AddResult.ok ⟨[⟨"T1", "corn", Cell.boolean false, "Frozen", "Costco"⟩]⟩ true := by
  refine ⟨by decide, ?_, ?_, ?_, ?_, ?_⟩ <;> decide

/-- C10, amended: run against the DataFrame loaded from an existing sheet, the
add operation appends a record (with `purchased = false` and the creation
timestamp `now` as identifier) if and only if a store is selected, a category
is selected, the stripped item name is non-empty, the stripped name is not
already an item name of the loaded collection, and the loaded collection is
non-empty; when a selection or name check fails the collection is unchanged;
when the loaded collection is empty and the three selection/name checks pass,
the duplicate check raises `KeyError` instead of appending. -/
theorem add_item_spec (sheet : Sheet) (new_store new_category : Option String)
    (new_item now : String) :
    (add_item_form sheet (dfOfSheet sheet) new_store new_category new_item now =
        AddResult.keyError ↔
      (new_store ≠ none ∧ new_category ≠ none ∧ pyStrip new_item ≠ "" ∧
        sheet.rows = [])) ∧
    ((∃ s1, add_item_form sheet (dfOfSheet sheet) new_store new_category new_item now =
        AddResult.ok s1 true) ↔
      (new_store ≠ none ∧ new_category ≠ none ∧ pyStrip new_item ≠ "" ∧
        pyStrip new_item ∉ (dfOfSheet sheet).rows.map Item.item ∧ sheet.rows ≠ [])) ∧
    (∀ s1, add_item_form sheet (dfOfSheet sheet) new_store new_category new_item now =
        AddResult.ok s1 false → s1 = sheet) ∧
    (∀ storeVal categoryVal s1, new_store = some storeVal → new_category = some categoryVal →
      add_item_form sheet (dfOfSheet sheet) new_store new_category new_item now =
        AddResult.ok s1 true →
      s1.rows = sheet.rows ++ [{ timestamp := now, item := pyStrip new_item,
                                 purchased := Cell.boolean false, category := categoryVal,
                                 store := storeVal }]) := by
  cases new_store with
  | none => simp [add_item_form]
  | some storeVal =>
    cases new_category with
    | none => simp [add_item_form]
    | some categoryVal =>
      by_cases h1 : pyStrip new_item = ""
      · simp [add_item_form, h1]
      · by_cases hemp : sheet.rows = []
        · simp [add_item_form, dfOfSheet, h1, hemp]
        · have hcols : (dfOfSheet sheet).hasColumns = true := by
            simp [dfOfSheet, List.isEmpty_iff, hemp]
          by_cases h2 : pyStrip new_item ∈ (dfOfSheet sheet).rows.map Item.item
          · simp [add_item_form, hcols, h1, h2, hemp]
          · simp [add_item_form, hcols, h1, h2, hemp]

end ShoppingList
